import Mathlib

/-!
Shallow embedding of the order-service core from
`src/order-service/src/main.rs` (Rust, axum + tokio-postgres).

Modelling choices:
* The in-process cache `RwLock<HashMap<String, Order>>` is modelled as the
  function map `String → Option Order`; `HashMap::insert` becomes a pointwise
  functional update, `contains_key`/`get` become lookups.
* The durable postgres table `order_schema.orders (order_uid, order_data)` is
  modelled as the function map `String → Option String` from key to the
  serialized payload column.  A boolean `dbFail` parameter injects the
  possibility of a connection-level store failure (any
  `tokio_postgres::Error` that is not a uniqueness conflict).
* `serde_json::to_string` is modelled by an executable JSON encoder whose
  result plumbing (`Option`) mirrors serde's `Result`; every leaf serializer
  used by the `Order` tree (`String`, `i64`) is infallible in serde_json, so
  the corresponding leaves here return `some`.
* `serde_json::from_str::<Order>` is a deserializer parameter
  `deser : String → Option Order`; the real function fails (returns an error,
  here `none`) on payloads that are not valid `Order` JSON.
* A Rust `.unwrap()` on a failing result is a process panic; outcome types
  carry an explicit `panicked` constructor for that case.
-/

/-- Embedded `struct Delivery` (seven string fields). -/
structure Delivery where
  name : String
  phone : String
  zip : String
  city : String
  address : String
  region : String
  email : String
deriving DecidableEq

/-- Embedded `struct Payment`. -/
structure Payment where
  transaction : String
  request_id : String
  currency : String
  provider : String
  amount : Int
  payment_dt : Int
  bank : String
  delivery_cost : Int
  goods_total : Int
  custom_fee : Int
deriving DecidableEq

/-- Embedded `struct Item`. -/
structure Item where
  chrt_id : Int
  track_number : String
  price : Int
  rid : String
  name : String
  sale : Int
  size : String
  total_price : Int
  nm_id : Int
  brand : String
  status : Int
deriving DecidableEq

/-- Embedded `struct Order` (aggregate root). -/
structure Order where
  order_uid : String
  track_number : String
  entry : String
  delivery : Delivery
  payment : Payment
  items : List Item
  locale : String
  internal_signature : String
  customer_id : String
  delivery_service : String
  shardkey : String
  sm_id : Int
  date_created : String
  oof_shard : String
deriving DecidableEq

/-- Condition of the delivery `if` in `validate_order`
(`order.delivery.name.is_empty() || ... || order.delivery.email.is_empty()`). -/
def delivery_fields_missing (d : Delivery) : Bool :=
  d.name.isEmpty || d.phone.isEmpty || d.zip.isEmpty || d.city.isEmpty ||
    d.address.isEmpty || d.region.isEmpty || d.email.isEmpty

/-- Condition of the payment `if` in `validate_order`
(`transaction/currency/provider .is_empty() || amount <= 0`). -/
def payment_fields_invalid (p : Payment) : Bool :=
  p.transaction.isEmpty || p.currency.isEmpty || p.provider.isEmpty ||
    decide (p.amount ≤ 0)

/-- Condition of the per-item `if` inside the `for item in &order.items` loop
of `validate_order`. -/
def item_fields_invalid (i : Item) : Bool :=
  decide (i.chrt_id ≤ 0) || decide (i.price ≤ 0) || i.rid.isEmpty ||
    i.name.isEmpty || i.brand.isEmpty

/-- Embeds the `for item in &order.items` loop of `validate_order`: first
offending item returns the error, an exhausted loop falls through to `Ok(())`. -/
def validate_items : List Item → Except String Unit
  | [] => Except.ok ()
  | i :: rest =>
    if item_fields_invalid i then
      Except.error "All item fields are required and numeric fields must be positive"
    else validate_items rest

/-- Embedded `fn validate_order(order: &Order) -> Result<(), String>`
(src/order-service/src/main.rs lines 271-314), mirroring the early-return
check sequence of the source. -/
def validate_order (order : Order) : Except String Unit :=
  if order.order_uid.isEmpty then Except.error "order_uid is required"
  else if order.track_number.isEmpty then Except.error "track_number is required"
  else if order.entry.isEmpty then Except.error "entry is required"
  else if delivery_fields_missing order.delivery then
    Except.error "All delivery fields are required"
  else if payment_fields_invalid order.payment then
    Except.error "All payment fields are required and amount must be positive"
  else if order.items.isEmpty then Except.error "At least one item is required"
  else validate_items order.items

/-- Spec-side validity of one item (claim C4's wording): `chrt_id > 0`,
`price > 0`, `rid`, `name`, `brand` non-empty. -/
def ItemValid (i : Item) : Prop :=
  0 < i.chrt_id ∧ 0 < i.price ∧ i.rid ≠ "" ∧ i.name ≠ "" ∧ i.brand ≠ ""

/-- Spec-side validity of a whole order (claim C4's wording): the conjunction
of every required constraint. -/
def ValidOrder (o : Order) : Prop :=
  o.order_uid ≠ "" ∧ o.track_number ≠ "" ∧ o.entry ≠ "" ∧
  (o.delivery.name ≠ "" ∧ o.delivery.phone ≠ "" ∧ o.delivery.zip ≠ "" ∧
    o.delivery.city ≠ "" ∧ o.delivery.address ≠ "" ∧ o.delivery.region ≠ "" ∧
    o.delivery.email ≠ "") ∧
  (o.payment.transaction ≠ "" ∧ o.payment.currency ≠ "" ∧
    o.payment.provider ≠ "" ∧ 0 < o.payment.amount) ∧
  o.items ≠ [] ∧ (∀ i ∈ o.items, ItemValid i)

instance (o : Order) : Decidable (ValidOrder o) := by
  unfold ValidOrder ItemValid; infer_instance

/-- Lowercase hex digit, as used by serde_json's unicode escape table. -/
def hex_digit (n : Nat) : Char :=
  if n < 10 then Char.ofNat (48 + n) else Char.ofNat (87 + n)

/-- JSON string-character escaping as performed by serde_json: quote,
backslash, the short control escapes, and a unicode escape for the other
control characters. -/
def escape_char (c : Char) : String :=
  if c = '"' then "\\\""
  else if c = '\\' then "\\\\"
  else if c = '\x08' then "\\b"
  else if c = '\x09' then "\\t"
  else if c = '\x0a' then "\\n"
  else if c = '\x0c' then "\\f"
  else if c = '\x0d' then "\\r"
  else if c.toNat < 32 then
    "\\u00" ++ String.singleton (hex_digit (c.toNat / 16)) ++
      String.singleton (hex_digit (c.toNat % 16))
  else String.singleton c

/-- JSON rendering of a string value (quotes plus escaping). -/
def json_quote (s : String) : String :=
  "\"" ++ String.join (s.data.map escape_char) ++ "\""

/-- serde_json leaf serializer for `String`: infallible (`serialize_str`
never errors for plain strings). -/
def ser_string (s : String) : Option String := some (json_quote s)

/-- serde_json leaf serializer for `i64`: infallible (`serialize_i64`
never errors). -/
def ser_int (n : Int) : Option String := some (toString n)

/-- Derived serde serializer for `Delivery`: chains the field serializers
(serde's `?` plumbing becomes `Option` bind), fields in declaration order. -/
def ser_delivery (d : Delivery) : Option String := do
  let name ← ser_string d.name
  let phone ← ser_string d.phone
  let zip ← ser_string d.zip
  let city ← ser_string d.city
  let address ← ser_string d.address
  let region ← ser_string d.region
  let email ← ser_string d.email
  some ("\x7b\"name\":" ++ name ++ ",\"phone\":" ++ phone ++ ",\"zip\":" ++ zip ++
    ",\"city\":" ++ city ++ ",\"address\":" ++ address ++ ",\"region\":" ++ region ++
    ",\"email\":" ++ email ++ "\x7d")

/-- Derived serde serializer for `Payment`. -/
def ser_payment (p : Payment) : Option String := do
  let transaction ← ser_string p.transaction
  let request_id ← ser_string p.request_id
  let currency ← ser_string p.currency
  let provider ← ser_string p.provider
  let amount ← ser_int p.amount
  let payment_dt ← ser_int p.payment_dt
  let bank ← ser_string p.bank
  let delivery_cost ← ser_int p.delivery_cost
  let goods_total ← ser_int p.goods_total
  let custom_fee ← ser_int p.custom_fee
  some ("\x7b\"transaction\":" ++ transaction ++ ",\"request_id\":" ++ request_id ++
    ",\"currency\":" ++ currency ++ ",\"provider\":" ++ provider ++
    ",\"amount\":" ++ amount ++ ",\"payment_dt\":" ++ payment_dt ++
    ",\"bank\":" ++ bank ++ ",\"delivery_cost\":" ++ delivery_cost ++
    ",\"goods_total\":" ++ goods_total ++ ",\"custom_fee\":" ++ custom_fee ++ "\x7d")

/-- Derived serde serializer for `Item`. -/
def ser_item (i : Item) : Option String := do
  let chrt_id ← ser_int i.chrt_id
  let track_number ← ser_string i.track_number
  let price ← ser_int i.price
  let rid ← ser_string i.rid
  let name ← ser_string i.name
  let sale ← ser_int i.sale
  let size ← ser_string i.size
  let total_price ← ser_int i.total_price
  let nm_id ← ser_int i.nm_id
  let brand ← ser_string i.brand
  let stat ← ser_int i.status
  some ("\x7b\"chrt_id\":" ++ chrt_id ++ ",\"track_number\":" ++ track_number ++
    ",\"price\":" ++ price ++ ",\"rid\":" ++ rid ++ ",\"name\":" ++ name ++
    ",\"sale\":" ++ sale ++ ",\"size\":" ++ size ++ ",\"total_price\":" ++ total_price ++
    ",\"nm_id\":" ++ nm_id ++ ",\"brand\":" ++ brand ++ ",\"status\":" ++ stat ++ "\x7d")

/-- Elementwise serialization of the item sequence (serde serializes a `Vec`
element by element, any element error propagates). -/
def ser_item_list : List Item → Option (List String)
  | [] => some []
  | i :: rest => do
    let s ← ser_item i
    let parts ← ser_item_list rest
    some (s :: parts)

/-- Derived serde serializer for `Vec<Item>`. -/
def ser_items (l : List Item) : Option String := do
  let parts ← ser_item_list l
  some ("[" ++ String.intercalate "," parts ++ "]")

/-- Embeds `serde_json::to_string(&order)` for the derived `Serialize` on
`Order`: chains all field serializers in declaration order. -/
def serde_json_to_string (o : Order) : Option String := do
  let order_uid ← ser_string o.order_uid
  let track_number ← ser_string o.track_number
  let entry ← ser_string o.entry
  let delivery ← ser_delivery o.delivery
  let payment ← ser_payment o.payment
  let items ← ser_items o.items
  let locale ← ser_string o.locale
  let internal_signature ← ser_string o.internal_signature
  let customer_id ← ser_string o.customer_id
  let delivery_service ← ser_string o.delivery_service
  let shardkey ← ser_string o.shardkey
  let sm_id ← ser_int o.sm_id
  let date_created ← ser_string o.date_created
  let oof_shard ← ser_string o.oof_shard
  some ("\x7b\"order_uid\":" ++ order_uid ++ ",\"track_number\":" ++ track_number ++
    ",\"entry\":" ++ entry ++ ",\"delivery\":" ++ delivery ++ ",\"payment\":" ++ payment ++
    ",\"items\":" ++ items ++ ",\"locale\":" ++ locale ++
    ",\"internal_signature\":" ++ internal_signature ++ ",\"customer_id\":" ++ customer_id ++
    ",\"delivery_service\":" ++ delivery_service ++ ",\"shardkey\":" ++ shardkey ++
    ",\"sm_id\":" ++ sm_id ++ ",\"date_created\":" ++ date_created ++
    ",\"oof_shard\":" ++ oof_shard ++ "\x7d")

/-- Cache type: model of `RwLock<HashMap<String, Order>>`. -/
abbrev Cache := String → Option Order

/-- Durable-store table: model of `order_schema.orders`, key to serialized
payload column. -/
abbrev Db := String → Option String

/-- Model of `HashMap::insert` on the cache (pointwise functional update). -/
def cacheInsert (c : Cache) (k : String) (v : Order) : Cache :=
  fun k2 => if k2 = k then some v else c k2

/-- Model of the `INSERT` row write performed by `save_order_to_db`. -/
def dbInsert (db : Db) (k : String) (payload : String) : Db :=
  fun k2 => if k2 = k then some payload else db k2

/-- Embedded `struct AppState`: the cache plus (the state behind) the
database client. -/
structure AppState where
  orders : Cache
  db : Db

/-- Kinds of `tokio_postgres::Error` the INSERT can produce: the primary-key
uniqueness violation on `order_uid`, or any other (connection-level) failure. -/
inductive StoreError where
  | uniqueViolation
  | connection
deriving DecidableEq

/-- Outcome of `save_order_to_db`: panic at the serialization `unwrap`, a
store error, or success with the updated table. -/
inductive SaveResult where
  | panicked
  | failed (e : StoreError)
  | ok (db : Db)

/-- Embedded `async fn save_order_to_db` (main.rs lines 317-325): serialize
the order (`unwrap` panics if that fails), then run the INSERT; the INSERT
fails with a uniqueness conflict exactly when the key is already present,
and `dbFail` injects any other `tokio_postgres::Error`. -/
def save_order_to_db (db : Db) (order : Order) (dbFail : Bool) : SaveResult :=
  match serde_json_to_string order with
  | none => SaveResult.panicked
  | some order_data =>
    if dbFail then SaveResult.failed StoreError.connection
    else if (db order.order_uid).isSome then SaveResult.failed StoreError.uniqueViolation
    else SaveResult.ok (dbInsert db order.order_uid order_data)

/-- Outcome of `get_order_from_db`: mirrors
`Result<Option<Order>, tokio_postgres::Error>`, plus the panic of the
deserialization `unwrap`. -/
inductive FetchResult where
  | ok (res : Option Order)
  | failed
  | panicked

/-- Embedded `async fn get_order_from_db` (main.rs lines 328-341):
`query_opt` either fails (`dbFail`, propagated by `?`) or returns the row
option; a present payload is deserialized with `.unwrap()`, which panics
when `deser` (standing for `serde_json::from_str::<Order>`) fails. -/
def get_order_from_db (deser : String → Option Order) (db : Db) (dbFail : Bool)
    (order_id : String) : FetchResult :=
  if dbFail then FetchResult.failed
  else
    match db order_id with
    | some order_data =>
      match deser order_data with
      | some order => FetchResult.ok (some order)
      | none => FetchResult.panicked
    | none => FetchResult.ok none

/-- HTTP-level outcome of the `create_order` handler:
`Ok((CREATED, Json(message)))`, an `Err((status, message))`, or a panic
propagated from `save_order_to_db`. -/
inductive CreateResult where
  | ok (stat : Nat) (message : String)
  | err (stat : Nat) (message : String)
  | panicked
deriving DecidableEq

/-- HTTP-level outcome of the `get_order` handler. -/
inductive GetResult where
  | ok (order : Order)
  | err (stat : Nat) (message : String)
  | panicked
deriving DecidableEq

/-- Embedded `async fn create_order` (main.rs lines 159-199): validate
(400 on failure), reject on cache `contains_key` (409), write the durable
row (500 on any store error), and only then insert into the cache and
return 201 with the confirmation message. -/
def create_order (state : AppState) (order : Order) (dbFail : Bool) :
    AppState × CreateResult :=
  match validate_order order with
  | Except.error e => (state, CreateResult.err 400 e)
  | Except.ok _ =>
    if (state.orders order.order_uid).isSome then
      (state, CreateResult.err 409 "Order already exists")
    else
      match save_order_to_db state.db order dbFail with
      | SaveResult.panicked => (state, CreateResult.panicked)
      | SaveResult.failed _ => (state, CreateResult.err 500 "Database error")
      | SaveResult.ok db2 =>
        (⟨cacheInsert state.orders order.order_uid order, db2⟩,
          CreateResult.ok 201
            ("Order with id " ++ order.order_uid ++ " created successfully"))

/-- Embedded `async fn get_order` (main.rs lines 202-235): cache lookup
first; on a miss fall back to `get_order_from_db`, mapping its outcomes to
200 / 404 "Order not found" / 500 "Database error". -/
def get_order (deser : String → Option Order) (state : AppState) (dbFail : Bool)
    (order_id : String) : AppState × GetResult :=
  match state.orders order_id with
  | some order => (state, GetResult.ok order)
  | none =>
    match get_order_from_db deser state.db dbFail order_id with
    | FetchResult.ok (some order) => (state, GetResult.ok order)
    | FetchResult.ok none => (state, GetResult.err 404 "Order not found")
    | FetchResult.failed => (state, GetResult.err 500 "Database error")
    | FetchResult.panicked => (state, GetResult.panicked)

/-- Concrete delivery record used by the spec's §8 scenario. -/
def delivery1 : Delivery := ⟨"d", "d", "d", "d", "d", "d", "d"⟩

/-- Concrete payment record (amount 100 > 0). -/
def payment1 : Payment := ⟨"tx", "", "USD", "p", 100, 0, "", 0, 0, 0⟩

/-- Concrete valid item (chrt_id 1, price 10). -/
def item1 : Item := ⟨1, "T1", 10, "r", "n", 0, "0", 0, 0, "b", 0⟩

/-- Concrete valid order with `order_uid = "X1"` (the spec's §8 scenario). -/
def order1 : Order :=
  ⟨"X1", "T1", "E", delivery1, payment1, [item1], "en", "", "c", "svc", "9", 99,
    "2021-11-26T06:22:19Z", "1"⟩

/-- `order1` with an empty `order_uid` (fails the first validation group). -/
def order_bad_uid : Order := { order1 with order_uid := "" }

/-- `order1` with `payment.amount = 0` (fails the payment group). -/
def order_bad_amount : Order :=
  { order1 with payment := { payment1 with amount := 0 } }

/-- Empty application state: cold cache, empty table. -/
def s0 : AppState := ⟨fun _ => none, fun _ => none⟩

/-- State with `order1` both cached and persisted (a warm cache). -/
def sWarm : AppState :=
  ⟨fun k => if k = "X1" then some order1 else none,
    fun k => if k = "X1" then some "p1" else none⟩

/-- State where key "X1" exists only in the durable table (cold cache, e.g.
after a process restart). -/
def sDbOnly : AppState :=
  ⟨fun _ => none, fun k => if k = "X1" then some "p1" else none⟩

/-- A deserializer outcome on a corrupt payload: `serde_json::from_str`
returns an error (here `none`) on a string that is not valid `Order` JSON. -/
def deser_fail : String → Option Order := fun _ => none

/-- State invariant of claim C1: every order visible in the cache already has
a row in the durable table. -/
def CachePersisted (s : AppState) : Prop :=
  ∀ id, (s.orders id).isSome → (s.db id).isSome

/-- Serializing one item always succeeds (every leaf is infallible). -/
lemma ser_item_total (i : Item) : ∃ s, ser_item i = some s := ⟨_, rfl⟩

/-- Elementwise serialization of the item list always succeeds. -/
lemma ser_item_list_total (l : List Item) : (ser_item_list l).isSome := by
  induction l with
  | nil => rfl
  | cons i rest ih =>
    obtain ⟨parts, hparts⟩ := Option.isSome_iff_exists.mp ih
    obtain ⟨si, hsi⟩ := ser_item_total i
    simp [ser_item_list, hsi, hparts]

/-- Serializing the item list always succeeds. -/
lemma ser_items_total (l : List Item) : (ser_items l).isSome := by
  obtain ⟨parts, hparts⟩ := Option.isSome_iff_exists.mp (ser_item_list_total l)
  simp [ser_items, hparts]

/-- Serializing a whole order always succeeds: every field serializer of the
`Order` tree is infallible. -/
lemma serde_json_to_string_total (o : Order) : (serde_json_to_string o).isSome := by
  obtain ⟨si, hsi⟩ := Option.isSome_iff_exists.mp (ser_items_total o.items)
  simp [serde_json_to_string, ser_string, ser_int, ser_delivery, ser_payment, hsi]

/-- Nonemptiness transfer from the `is_empty` check to the spec's wording. -/
lemma ne_empty_of_isEmpty_false {s : String} (h : s.isEmpty = false) : s ≠ "" :=
  fun hc => absurd ((String.isEmpty_iff s).mpr hc) (by simp [h])

/-- The per-item check condition fires exactly when the item violates the
claim's item constraints. -/
lemma item_fields_invalid_iff (i : Item) :
    item_fields_invalid i = true ↔ ¬ ItemValid i := by
  simp only [item_fields_invalid, ItemValid, Bool.or_eq_true, decide_eq_true_eq,
    String.isEmpty_iff, ← not_lt]
  tauto

/-- The delivery check condition, as a proposition. -/
lemma delivery_fields_missing_iff (d : Delivery) :
    delivery_fields_missing d = true ↔
      (d.name = "" ∨ d.phone = "" ∨ d.zip = "" ∨ d.city = "" ∨ d.address = "" ∨
        d.region = "" ∨ d.email = "") := by
  simp [delivery_fields_missing, String.isEmpty_iff, or_assoc]

/-- The payment check condition, as a proposition. -/
lemma payment_fields_invalid_iff (p : Payment) :
    payment_fields_invalid p = true ↔
      (p.transaction = "" ∨ p.currency = "" ∨ p.provider = "" ∨ p.amount ≤ 0) := by
  simp [payment_fields_invalid, String.isEmpty_iff, or_assoc]

/-- The item loop accepts exactly the lists whose items are all valid. -/
lemma validate_items_ok_iff (l : List Item) :
    validate_items l = Except.ok () ↔ ∀ i ∈ l, ItemValid i := by
  induction l with
  | nil => simp [validate_items]
  | cons i rest ih =>
    by_cases h : item_fields_invalid i
    · simp [validate_items, h, (item_fields_invalid_iff i).mp h]
    · simp only [Bool.not_eq_true] at h
      have hv : ItemValid i := by
        by_contra hc
        exact absurd ((item_fields_invalid_iff i).mpr hc) (by simp [h])
      simp [validate_items, h, ih, hv]

/-- The item loop reports one fixed error message whenever it rejects. -/
lemma validate_items_error_of_invalid (l : List Item)
    (h : ∃ i ∈ l, ¬ ItemValid i) :
    validate_items l =
      Except.error "All item fields are required and numeric fields must be positive" := by
  induction l with
  | nil => simp at h
  | cons i rest ih =>
    by_cases hi : item_fields_invalid i
    · simp [validate_items, hi]
    · simp only [Bool.not_eq_true] at hi
      have hv : ItemValid i := by
        by_contra hc
        exact absurd ((item_fields_invalid_iff i).mpr hc) (by simp [hi])
      obtain ⟨j, hj, hnv⟩ := h
      rcases List.mem_cons.mp hj with rfl | hj2
      · exact absurd hv hnv
      · simpa [validate_items, hi] using ih ⟨j, hj2, hnv⟩

/-- The validator accepts exactly the orders satisfying all required
constraints of the data model. -/
lemma validate_order_ok_iff (o : Order) :
    validate_order o = Except.ok () ↔ ValidOrder o := by
  unfold validate_order ValidOrder
  by_cases h1 : o.order_uid.isEmpty
  · exact iff_of_false (by simp [h1]) (fun hv => hv.1 ((String.isEmpty_iff _).mp h1))
  · simp only [Bool.not_eq_true] at h1
    by_cases h2 : o.track_number.isEmpty
    · exact iff_of_false (by simp [h1, h2])
        (fun hv => hv.2.1 ((String.isEmpty_iff _).mp h2))
    · simp only [Bool.not_eq_true] at h2
      by_cases h3 : o.entry.isEmpty
      · exact iff_of_false (by simp [h1, h2, h3])
          (fun hv => hv.2.2.1 ((String.isEmpty_iff _).mp h3))
      · simp only [Bool.not_eq_true] at h3
        by_cases h4 : delivery_fields_missing o.delivery
        · refine iff_of_false (by simp [h1, h2, h3, h4]) (fun hv => ?_)
          have hd := hv.2.2.2.1
          rcases (delivery_fields_missing_iff o.delivery).mp h4 with h | h | h | h | h | h | h
          exacts [hd.1 h, hd.2.1 h, hd.2.2.1 h, hd.2.2.2.1 h, hd.2.2.2.2.1 h,
            hd.2.2.2.2.2.1 h, hd.2.2.2.2.2.2 h]
        · simp only [Bool.not_eq_true] at h4
          by_cases h5 : payment_fields_invalid o.payment
          · refine iff_of_false (by simp [h1, h2, h3, h4, h5]) (fun hv => ?_)
            have hp := hv.2.2.2.2.1
            rcases (payment_fields_invalid_iff o.payment).mp h5 with h | h | h | h
            exacts [hp.1 h, hp.2.1 h, hp.2.2.1 h, absurd hp.2.2.2 (by omega)]
          · simp only [Bool.not_eq_true] at h5
            by_cases h6 : o.items.isEmpty
            · exact iff_of_false (by simp [h1, h2, h3, h4, h5, h6])
                (fun hv => hv.2.2.2.2.2.1 (List.isEmpty_iff.mp h6))
            · simp only [Bool.not_eq_true] at h6
              have h1' := ne_empty_of_isEmpty_false h1
              have h2' := ne_empty_of_isEmpty_false h2
              have h3' := ne_empty_of_isEmpty_false h3
              have hdneg : ¬(o.delivery.name = "" ∨ o.delivery.phone = "" ∨
                  o.delivery.zip = "" ∨ o.delivery.city = "" ∨ o.delivery.address = "" ∨
                  o.delivery.region = "" ∨ o.delivery.email = "") := by
                intro hc
                exact absurd ((delivery_fields_missing_iff o.delivery).mpr hc) (by simp [h4])
              have hpneg : ¬(o.payment.transaction = "" ∨ o.payment.currency = "" ∨
                  o.payment.provider = "" ∨ o.payment.amount ≤ 0) := by
                intro hc
                exact absurd ((payment_fields_invalid_iff o.payment).mpr hc) (by simp [h5])
              push_neg at hdneg hpneg
              have hne : o.items ≠ [] := by
                intro hc
                simp [hc] at h6
              simp only [h1, h2, h3, h4, h5, h6, Bool.false_eq_true, if_false]
              rw [validate_items_ok_iff]
              constructor
              · intro hall
                exact ⟨h1', h2', h3', hdneg, ⟨hpneg.1, hpneg.2.1, hpneg.2.2.1,
                  hpneg.2.2.2⟩, hne, hall⟩
              · rintro ⟨-, -, -, -, -, -, hall⟩
                exact hall

/-- Emptiness transfer in the other direction. -/
lemma isEmpty_false_of_ne {s : String} (h : s ≠ "") : s.isEmpty = false := by
  cases hb : s.isEmpty
  · rfl
  · exact absurd ((String.isEmpty_iff s).mp hb) h

/-- The delivery check passes on fully populated delivery data. -/
lemma delivery_fields_missing_false {d : Delivery}
    (h : d.name ≠ "" ∧ d.phone ≠ "" ∧ d.zip ≠ "" ∧ d.city ≠ "" ∧ d.address ≠ "" ∧
      d.region ≠ "" ∧ d.email ≠ "") :
    delivery_fields_missing d = false := by
  cases hb : delivery_fields_missing d
  · rfl
  · rcases (delivery_fields_missing_iff d).mp hb with hc | hc | hc | hc | hc | hc | hc <;> tauto

/-- The payment check passes on fully populated payment data with positive
amount. -/
lemma payment_fields_invalid_false {p : Payment}
    (h : p.transaction ≠ "" ∧ p.currency ≠ "" ∧ p.provider ≠ "" ∧ 0 < p.amount) :
    payment_fields_invalid p = false := by
  cases hb : payment_fields_invalid p
  · rfl
  · rcases (payment_fields_invalid_iff p).mp hb with hc | hc | hc | hc
    · exact absurd hc h.1
    · exact absurd hc h.2.1
    · exact absurd hc h.2.2.1
    · exact absurd h.2.2.2 (by omega)

/-- C4: `validate_order` is pure, deterministic and total by construction (a
Lean function), accepts exactly the orders meeting every required
constraint, checks the groups in the order of the source, and short-circuits
so only the first failing group's error is reported. -/
theorem validate_order_correct (o : Order) :
    (validate_order o = Except.ok () ↔ ValidOrder o) ∧
    (o.order_uid = "" → validate_order o = Except.error "order_uid is required") ∧
    (o.order_uid ≠ "" → o.track_number = "" →
      validate_order o = Except.error "track_number is required") ∧
    (o.order_uid ≠ "" → o.track_number ≠ "" → o.entry = "" →
      validate_order o = Except.error "entry is required") ∧
    (o.order_uid ≠ "" → o.track_number ≠ "" → o.entry ≠ "" →
      (o.delivery.name = "" ∨ o.delivery.phone = "" ∨ o.delivery.zip = "" ∨
        o.delivery.city = "" ∨ o.delivery.address = "" ∨ o.delivery.region = "" ∨
        o.delivery.email = "") →
      validate_order o = Except.error "All delivery fields are required") ∧
    (o.order_uid ≠ "" → o.track_number ≠ "" → o.entry ≠ "" →
      (o.delivery.name ≠ "" ∧ o.delivery.phone ≠ "" ∧ o.delivery.zip ≠ "" ∧
        o.delivery.city ≠ "" ∧ o.delivery.address ≠ "" ∧ o.delivery.region ≠ "" ∧
        o.delivery.email ≠ "") →
      (o.payment.transaction = "" ∨ o.payment.currency = "" ∨
        o.payment.provider = "" ∨ o.payment.amount ≤ 0) →
      validate_order o =
        Except.error "All payment fields are required and amount must be positive") ∧
    (o.order_uid ≠ "" → o.track_number ≠ "" → o.entry ≠ "" →
      (o.delivery.name ≠ "" ∧ o.delivery.phone ≠ "" ∧ o.delivery.zip ≠ "" ∧
        o.delivery.city ≠ "" ∧ o.delivery.address ≠ "" ∧ o.delivery.region ≠ "" ∧
        o.delivery.email ≠ "") →
      (o.payment.transaction ≠ "" ∧ o.payment.currency ≠ "" ∧
        o.payment.provider ≠ "" ∧ 0 < o.payment.amount) →
      o.items = [] →
      validate_order o = Except.error "At least one item is required") ∧
    (o.order_uid ≠ "" → o.track_number ≠ "" → o.entry ≠ "" →
      (o.delivery.name ≠ "" ∧ o.delivery.phone ≠ "" ∧ o.delivery.zip ≠ "" ∧
        o.delivery.city ≠ "" ∧ o.delivery.address ≠ "" ∧ o.delivery.region ≠ "" ∧
        o.delivery.email ≠ "") →
      (o.payment.transaction ≠ "" ∧ o.payment.currency ≠ "" ∧
        o.payment.provider ≠ "" ∧ 0 < o.payment.amount) →
      o.items ≠ [] → (∃ i ∈ o.items, ¬ ItemValid i) →
      validate_order o =
        Except.error "All item fields are required and numeric fields must be positive") := by
  refine ⟨validate_order_ok_iff o, ?_, ?_, ?_, ?_, ?_, ?_, ?_⟩
  · intro h
    simp [validate_order, (String.isEmpty_iff _).mpr h]
  · intro hu ht
    simp [validate_order, isEmpty_false_of_ne hu, (String.isEmpty_iff _).mpr ht]
  · intro hu ht he
    simp [validate_order, isEmpty_false_of_ne hu, isEmpty_false_of_ne ht,
      (String.isEmpty_iff _).mpr he]
  · intro hu ht he hd
    simp [validate_order, isEmpty_false_of_ne hu, isEmpty_false_of_ne ht,
      isEmpty_false_of_ne he, (delivery_fields_missing_iff _).mpr hd]
  · intro hu ht he hd hp
    simp [validate_order, isEmpty_false_of_ne hu, isEmpty_false_of_ne ht,
      isEmpty_false_of_ne he, delivery_fields_missing_false hd,
      (payment_fields_invalid_iff _).mpr hp]
  · intro hu ht he hd hp hitems
    simp [validate_order, isEmpty_false_of_ne hu, isEmpty_false_of_ne ht,
      isEmpty_false_of_ne he, delivery_fields_missing_false hd,
      payment_fields_invalid_false hp, hitems]
  · intro hu ht he hd hp hne hinv
    have hfinal := validate_items_error_of_invalid o.items hinv
    simp [validate_order, isEmpty_false_of_ne hu, isEmpty_false_of_ne ht,
      isEmpty_false_of_ne he, delivery_fields_missing_false hd,
      payment_fields_invalid_false hp, hne, hfinal]

/-- Witness for C4: the spec's §8 scenario order with `payment.amount = 0`
is rejected with the payment-group error, and the valid §8 order is
accepted. -/
theorem validate_order_correct_witness :
    (validate_order order_bad_amount =
      Except.error "All payment fields are required and amount must be positive") ∧
    validate_order order1 = Except.ok () :=
  ⟨(validate_order_correct order_bad_amount).2.2.2.2.2.1 (by decide) (by decide)
      (by decide) (by decide) (by decide),
    (validate_order_correct order1).1.mpr (by decide)⟩

/-- C5: an order failing validation is rejected with the 400 validation
error and the application state (cache and durable table alike) is left
completely unchanged. -/
theorem create_invalid_no_effect (s : AppState) (o : Order) (f : Bool) (e : String)
    (h : validate_order o = Except.error e) :
    create_order s o f = (s, CreateResult.err 400 e) := by
  simp [create_order, h]

/-- Witness for C5: creating the §8 order with `payment.amount = 0` in the
empty state returns 400 and leaves the state empty. -/
theorem create_invalid_no_effect_witness :
    create_order s0 order_bad_amount false =
      (s0, CreateResult.err 400
        "All payment fields are required and amount must be positive") :=
  create_invalid_no_effect s0 order_bad_amount false _ rfl

/-- C10: serialization of any `Order` value succeeds, so the `unwrap` on
`serde_json::to_string` in `save_order_to_db` can never panic and the create
path cannot abort at serialization. -/
theorem save_order_serialization_never_panics (db : Db) (order : Order) (dbFail : Bool) :
    save_order_to_db db order dbFail ≠ SaveResult.panicked := by
  obtain ⟨s, hs⟩ := Option.isSome_iff_exists.mp (serde_json_to_string_total order)
  simp only [save_order_to_db, hs]
  split
  · simp
  · split <;> simp

/-- Outcomes of the durable insert: either some store failure with the state
untouched, or success appending exactly one row for the order's key. -/
lemma save_order_to_db_cases (db : Db) (o : Order) (f : Bool) :
    (∃ e, save_order_to_db db o f = SaveResult.failed e) ∨
    (∃ payload, serde_json_to_string o = some payload ∧
      save_order_to_db db o f = SaveResult.ok (dbInsert db o.order_uid payload)) := by
  obtain ⟨payload, hs⟩ := Option.isSome_iff_exists.mp (serde_json_to_string_total o)
  by_cases hf : f
  · exact Or.inl ⟨StoreError.connection, by simp [save_order_to_db, hs, hf]⟩
  · by_cases hdb : (db o.order_uid).isSome
    · exact Or.inl ⟨StoreError.uniqueViolation, by simp [save_order_to_db, hs, hf, hdb]⟩
    · exact Or.inr ⟨payload, hs, by simp [save_order_to_db, hs, hf, hdb]⟩

/-- Outcomes of creation: either a non-success with both cache and table
untouched, or a success that wrote the row and then cached the order. -/
lemma create_order_cases (s : AppState) (o : Order) (f : Bool) :
    ((create_order s o f).1 = s ∧ ∀ st m, (create_order s o f).2 ≠ CreateResult.ok st m) ∨
    (∃ payload, serde_json_to_string o = some payload ∧
      create_order s o f =
        (⟨cacheInsert s.orders o.order_uid o, dbInsert s.db o.order_uid payload⟩,
          CreateResult.ok 201 ("Order with id " ++ o.order_uid ++ " created successfully"))) := by
  cases hv : validate_order o with
  | error e => exact Or.inl ⟨by simp [create_order, hv], by simp [create_order, hv]⟩
  | ok u =>
    cases u
    by_cases hc : (s.orders o.order_uid).isSome
    · exact Or.inl ⟨by simp [create_order, hv, hc], by simp [create_order, hv, hc]⟩
    · rcases save_order_to_db_cases s.db o f with ⟨e, he⟩ | ⟨payload, hs, hok⟩
      · exact Or.inl ⟨by simp [create_order, hv, hc, he], by simp [create_order, hv, hc, he]⟩
      · exact Or.inr ⟨payload, hs, by simp [create_order, hv, hc, hok]⟩

/-- Retrieval never changes the application state, in any branch. -/
lemma get_order_state_eq (deser : String → Option Order) (s : AppState) (f : Bool)
    (id : String) : (get_order deser s f id).1 = s := by
  unfold get_order
  cases hso : s.orders id with
  | some o => simp
  | none =>
    cases hdb : get_order_from_db deser s.db f id with
    | ok res => cases res <;> simp [hdb]
    | failed => simp [hdb]
    | panicked => simp [hdb]

/-- C1: the cache-persistence invariant — every cached order already has a
durable row — is preserved by `create_order` (the cache is only written
after the durable insert succeeded) and by `get_order`; moreover any
non-created outcome of `create_order` leaves the state (cache included)
exactly as it was, so a failed or skipped durable write never populates the
cache. -/
theorem cache_written_only_after_durable_insert (s : AppState) (o : Order) (f : Bool)
    (deser : String → Option Order) (id : String) (hinv : CachePersisted s) :
    CachePersisted (create_order s o f).1 ∧
    CachePersisted (get_order deser s f id).1 ∧
    (∀ st m, (create_order s o f).2 = CreateResult.err st m → (create_order s o f).1 = s) := by
  refine ⟨?_, ?_, ?_⟩
  · rcases create_order_cases s o f with ⟨hst, -⟩ | ⟨payload, -, heq⟩
    · rw [hst]; exact hinv
    · rw [heq]
      intro id2 h2
      by_cases hid : id2 = o.order_uid
      · simp [dbInsert, hid]
      · simp only [cacheInsert, hid, if_false] at h2
        simp only [dbInsert, hid, if_false]
        exact hinv id2 h2
  · rw [get_order_state_eq]; exact hinv
  · intro st m herr
    rcases create_order_cases s o f with ⟨hst, -⟩ | ⟨payload, -, heq⟩
    · exact hst
    · rw [heq] at herr
      exact absurd herr (by simp)

/-- Witness for C1: the empty state satisfies the invariant, and it is
preserved across a successful creation of the §8 order. -/
theorem cache_written_only_after_durable_insert_witness :
    CachePersisted s0 ∧ CachePersisted (create_order s0 order1 false).1 := by
  have hinv : CachePersisted s0 := fun id h => by simp [s0] at h
  exact ⟨hinv,
    (cache_written_only_after_durable_insert s0 order1 false deser_fail "X1" hinv).1⟩

/-- C9: retrieval never modifies the application state (cache in
particular), and the only cache mutation in the whole program is the single
insert `create_order` performs on its success path. -/
theorem get_never_mutates_cache (deser : String → Option Order) (s : AppState)
    (f : Bool) (id : String) (o : Order) :
    (get_order deser s f id).1 = s ∧
    ((create_order s o f).1.orders = s.orders ∨
      ((∃ st m, (create_order s o f).2 = CreateResult.ok st m) ∧
        (create_order s o f).1.orders = cacheInsert s.orders o.order_uid o)) := by
  refine ⟨get_order_state_eq deser s f id, ?_⟩
  rcases create_order_cases s o f with ⟨hst, -⟩ | ⟨payload, -, heq⟩
  · exact Or.inl (by rw [hst])
  · exact Or.inr ⟨⟨201, "Order with id " ++ o.order_uid ++ " created successfully",
      by rw [heq]⟩, by rw [heq]⟩

/-- A deserializer that recovers `order1` from the payload "p1": stands for
`serde_json::from_str` succeeding on a well-formed stored document. -/
def deser1 : String → Option Order := fun p => if p = "p1" then some order1 else none

/-- C6: retrieval semantics. A cache hit answers from the cache for any
store condition (`f` arbitrary: the durable store is not consulted); a cache
miss falls back to the table, returning the deserialized stored order when
the row exists, 404 when it does not, and 500 exactly on a store error; the
not-found response is distinct from the storage-failure response. -/
theorem get_order_semantics (deser : String → Option Order) (s : AppState) (id : String) :
    (∀ f o, s.orders id = some o → get_order deser s f id = (s, GetResult.ok o)) ∧
    (∀ p o, s.orders id = none → s.db id = some p → deser p = some o →
      get_order deser s false id = (s, GetResult.ok o)) ∧
    (s.orders id = none → s.db id = none →
      get_order deser s false id = (s, GetResult.err 404 "Order not found")) ∧
    (s.orders id = none →
      get_order deser s true id = (s, GetResult.err 500 "Database error")) ∧
    GetResult.err 404 "Order not found" ≠ GetResult.err 500 "Database error" := by
  refine ⟨?_, ?_, ?_, ?_, by simp⟩
  · intro f o h
    simp [get_order, h]
  · intro p o hc hdb hdes
    simp [get_order, get_order_from_db, hc, hdb, hdes]
  · intro hc hdb
    simp [get_order, get_order_from_db, hc, hdb]
  · intro hc
    simp [get_order, get_order_from_db, hc]

/-- Witness for C6: a warm-cache hit answers even while the store is failing;
a cold-cache fallback deserializes the stored row; a never-created id is 404. -/
theorem get_order_semantics_witness :
    get_order deser1 sWarm true "X1" = (sWarm, GetResult.ok order1) ∧
    get_order deser1 sDbOnly false "X1" = (sDbOnly, GetResult.ok order1) ∧
    get_order deser1 s0 false "X1" = (s0, GetResult.err 404 "Order not found") :=
  ⟨(get_order_semantics deser1 sWarm "X1").1 true order1 rfl,
    (get_order_semantics deser1 sDbOnly "X1").2.1 "p1" order1 rfl rfl rfl,
    (get_order_semantics deser1 s0 "X1").2.2.1 rfl rfl⟩

/-- C3: a valid order with a fresh identifier is created successfully (201,
store reachable), and an immediately following retrieval of its id returns
exactly that order, whatever the deserializer or store condition, without
touching the state further. -/
theorem create_then_get_roundtrip (s : AppState) (o : Order)
    (hval : validate_order o = Except.ok ())
    (hcache : s.orders o.order_uid = none) (hdb : s.db o.order_uid = none) :
    (create_order s o false).2 =
      CreateResult.ok 201 ("Order with id " ++ o.order_uid ++ " created successfully") ∧
    ∀ deser f, get_order deser (create_order s o false).1 f o.order_uid =
      ((create_order s o false).1, GetResult.ok o) := by
  obtain ⟨payload, hs⟩ := Option.isSome_iff_exists.mp (serde_json_to_string_total o)
  have hstep : create_order s o false =
      (⟨cacheInsert s.orders o.order_uid o, dbInsert s.db o.order_uid payload⟩,
        CreateResult.ok 201 ("Order with id " ++ o.order_uid ++ " created successfully")) := by
    simp [create_order, hval, hcache, save_order_to_db, hs, hdb]
  rw [hstep]
  exact ⟨rfl, fun deser f => by simp [get_order, cacheInsert]⟩

/-- Witness for C3: creating the §8 order in the empty state and reading it
back, even with a failing store and a failing deserializer at read time. -/
theorem create_then_get_roundtrip_witness :
    (create_order s0 order1 false).2 =
      CreateResult.ok 201 "Order with id X1 created successfully" ∧
    get_order deser_fail (create_order s0 order1 false).1 true "X1" =
      ((create_order s0 order1 false).1, GetResult.ok order1) := by
  have h := create_then_get_roundtrip s0 order1 rfl rfl rfl
  exact ⟨h.1, h.2 deser_fail true⟩

/-- Counterexample to C2 as stated: with a cold cache and the key already in
the durable table, re-creating "X1" is answered with the 500 storage-failure
response, not with the 409 duplicate response the claim requires for a
uniqueness conflict. -/
theorem duplicate_only_in_store_is_500 :
    (create_order sDbOnly order1 false).2 = CreateResult.err 500 "Database error" ∧
    (create_order sDbOnly order1 false).2 ≠ CreateResult.err 409 "Order already exists" :=
  ⟨rfl, by decide⟩

/-- C2 (amended): a duplicate detected by the cache `contains_key` check is
rejected 409; a duplicate that survives to the durable insert surfaces as a
store error which — like every other store failure — is reported as the 500
storage-failure response, the state staying unchanged. -/
theorem duplicate_handling (s : AppState) (o : Order) (f : Bool)
    (hval : validate_order o = Except.ok ()) :
    ((s.orders o.order_uid).isSome = true →
      create_order s o f = (s, CreateResult.err 409 "Order already exists")) ∧
    (s.orders o.order_uid = none → (f = true ∨ (s.db o.order_uid).isSome = true) →
      create_order s o f = (s, CreateResult.err 500 "Database error")) := by
  constructor
  · intro hc
    simp [create_order, hval, hc]
  · intro hnone hor
    obtain ⟨payload, hs⟩ := Option.isSome_iff_exists.mp (serde_json_to_string_total o)
    rcases hor with hf | hdb
    · simp [create_order, hval, hnone, save_order_to_db, hs, hf]
    · by_cases hf : f
      · simp [create_order, hval, hnone, save_order_to_db, hs, hf]
      · simp [create_order, hval, hnone, save_order_to_db, hs, hf, hdb]

/-- Witness for C2 (amended): warm-cache duplicate of "X1" is 409; the same
key present only in the durable table is 500. -/
theorem duplicate_handling_witness :
    create_order sWarm order1 false = (sWarm, CreateResult.err 409 "Order already exists") ∧
    create_order sDbOnly order1 false = (sDbOnly, CreateResult.err 500 "Database error") :=
  ⟨(duplicate_handling sWarm order1 false rfl).1 rfl,
    (duplicate_handling sDbOnly order1 false rfl).2 rfl (Or.inr rfl)⟩

/-- Counterexample to C8 as stated: the success payload of `create_order` is
the fixed confirmation message, which is not the persisted order document
(its serialization differs from the message). -/
theorem create_success_body_is_message :
    (create_order s0 order1 false).2 =
      CreateResult.ok 201 "Order with id X1 created successfully" ∧
    serde_json_to_string order1 ≠ some "Order with id X1 created successfully" :=
  ⟨rfl, by decide⟩

/-- C8 (amended): on success, `create_order` returns 201 with the
confirmation message naming the order_uid, not the stored order value. -/
theorem create_success_returns_confirmation (s : AppState) (o : Order)
    (hval : validate_order o = Except.ok ())
    (hcache : s.orders o.order_uid = none) (hdb : s.db o.order_uid = none) :
    (create_order s o false).2 =
      CreateResult.ok 201 ("Order with id " ++ o.order_uid ++ " created successfully") := by
  obtain ⟨payload, hs⟩ := Option.isSome_iff_exists.mp (serde_json_to_string_total o)
  simp [create_order, hval, hcache, save_order_to_db, hs, hdb]

/-- Witness for C8 (amended): the §8 order created in the empty state. -/
theorem create_success_returns_confirmation_witness :
    (create_order s0 order1 false).2 =
      CreateResult.ok 201 "Order with id X1 created successfully" :=
  create_success_returns_confirmation s0 order1 rfl rfl rfl

/-- C7 (code behavior at the failing input): when the table row for "X1"
holds a payload the deserializer rejects, `get_order` ends in the
`unwrap` panic — it does not produce the 500 storage-failure response the
claim (and spec §7) requires. -/
theorem get_panics_on_corrupt_payload :
    (get_order deser_fail sDbOnly false "X1").2 = GetResult.panicked ∧
    (get_order deser_fail sDbOnly false "X1").2 ≠ GetResult.err 500 "Database error" :=
  ⟨rfl, by decide⟩
